import Mathlib

/-!
Shallow embedding of the `mouse-sqlite3` wrapper (files `connection.rs` and
`stmt.rs`) and proofs about its connection/statement lifecycle logic.

The native SQLite engine is an external collaborator reached through a fixed
C surface (open/close, prepare/finalize, bind, step, reset, clear-bindings,
column access).  Its status codes are modelled as oracle parameters of each
wrapper operation, and the native statement state the wrapper observes
(parameter bindings, the current result row) is carried explicitly in the
`Stmt` model, following the documented contract of each native call.
Panics (`assert!`, `panic!`, `unwrap` in the Rust source) are modelled by the
`Outcome.panic` constructor; recoverable errors by `Except.error`.
-/

namespace MouseSqlite

/-- Native status code `SQLITE_OK`. -/
def SQLITE_OK : Int := 0

/-- Native status code `SQLITE_ROW`. -/
def SQLITE_ROW : Int := 100

/-- Native status code `SQLITE_DONE`. -/
def SQLITE_DONE : Int := 101

/-- Native status code `SQLITE_TOOBIG`. -/
def SQLITE_TOOBIG : Int := 18

/-- Native status code `SQLITE_RANGE`. -/
def SQLITE_RANGE : Int := 25

/-- Native dynamic type tag `SQLITE_NULL`. -/
def SQLITE_NULL : Int := 5

/-- Native dynamic type tag `SQLITE_INTEGER`. -/
def SQLITE_INTEGER : Int := 1

/-- Native dynamic type tag `SQLITE_BLOB`. -/
def SQLITE_BLOB : Int := 4

/-- Largest value of the C type `c_int` (a 32-bit signed integer). -/
def C_INT_MAX : Nat := 2147483647

/-- Model of Rust `c_int::try_from(n)` for a `usize` argument: succeeds exactly
when the value fits in a 32-bit signed integer. -/
def cIntOfUsize (n : Nat) : Option Int :=
  if n ≤ C_INT_MAX then some (Int.ofNat n) else none

/-- Modelled from the spec: the crate error type (its module is not among the
given source files; only `Error::new`, `Error::OK`, `Error::DONE` and
`Error::ROW` are referenced from `connection.rs` and `stmt.rs`).  Spec section
7: the error taxonomy maps one-to-one to native status codes — success,
row available, done, too large, range error — and all other engine codes
collapse into a generic engine-error kind carrying the code. -/
inductive Error where
  | OK : Error
  | ROW : Error
  | DONE : Error
  | TOOBIG : Error
  | RANGE : Error
  | engine (code : Int) : Error
deriving DecidableEq, Repr

/-- Modelled from the spec: `Error::new(code)` classifies a native status
code into the taxonomy above. -/
def Error.new (code : Int) : Error :=
  if code = SQLITE_OK then Error.OK
  else if code = SQLITE_ROW then Error.ROW
  else if code = SQLITE_DONE then Error.DONE
  else if code = SQLITE_TOOBIG then Error.TOOBIG
  else if code = SQLITE_RANGE then Error.RANGE
  else Error.engine code

/-- A dynamically-typed SQLite value as observed through the bind and column
interfaces used by the wrapper: null, 64-bit integer, or blob (byte list). -/
inductive Value where
  | vnull : Value
  | vint (i : Int) : Value
  | vblob (b : List Nat) : Value
deriving DecidableEq, Repr

/-- The native dynamic type tag of a value, as returned by
`sqlite3_column_type`. -/
def Value.columnType : Value → Int
  | Value.vnull => SQLITE_NULL
  | Value.vint _ => SQLITE_INTEGER
  | Value.vblob _ => SQLITE_BLOB

/-- Result of a wrapper call that may abort the process: `ok` is a normal
return, `panic` models a Rust panic (failed `assert!`, `panic!` or
`unwrap`). -/
inductive Outcome (α : Type) where
  | ok (val : α) : Outcome α
  | panic : Outcome α
deriving DecidableEq, Repr

/-- Model of `Stmt` (stmt.rs): the wrapper fields `raw` (the native handle,
modelled as its address), `column_count` (fixed at preparation) and `is_row`,
together with the native statement state the wrapper's calls act on:
`bindings`, the parameter values currently bound (keyed by 1-based `c_int`
index), and `row`, the column values of the native row cursor's current row
(empty when no row is available). -/
structure Stmt where
  raw : Nat
  column_count : Nat
  is_row : Bool
  bindings : List (Int × Value)
  row : List Value
deriving DecidableEq, Repr

/-- Model of `Stmt::reset`: calls `sqlite3_reset`, whose documented contract
clears the execution position (the row cursor) and does not touch the bound
parameters, then sets `is_row` to `false`. -/
def Stmt.reset (s : Stmt) : Stmt :=
  { s with is_row := false, row := [] }

/-- Effect of a successful `sqlite3_clear_bindings` call on the native
statement: every bound parameter value is cleared. -/
def Stmt.clear_bindings (s : Stmt) : Stmt :=
  { s with bindings := [] }

/-- Model of `Stmt::clear`: `self.reset()`, then `sqlite3_clear_bindings`
(its status code is the oracle argument `code`); a non-`OK` status panics. -/
def Stmt.clear (s : Stmt) (code : Int) : Outcome Stmt :=
  let s1 := Stmt.reset s
  match Error.new code with
  | Error.OK => Outcome.ok (Stmt.clear_bindings s1)
  | _ => Outcome.panic

/-- Model of `Stmt::step`.  `code` is the status returned by `sqlite3_step`;
`newRow` is the row the native cursor is positioned on when that status is
`SQLITE_ROW`.  `DONE` resets and returns `Ok(false)`; `ROW` records the row
and returns `Ok(true)` without resetting; anything else resets and returns
the classified error as a value. -/
def Stmt.step (s : Stmt) (code : Int) (newRow : List Value) :
    Stmt × Except Error Bool :=
  match Error.new code with
  | Error.DONE => (Stmt.reset s, Except.ok false)
  | Error.ROW => ({ s with is_row := true, row := newRow }, Except.ok true)
  | e => (Stmt.reset s, Except.error e)

/-- Updates an association list at key `i` (replacing an existing entry, or
appending a fresh one): the effect of a successful native bind call on the
statement's bound parameters. -/
def bindAssoc (l : List (Int × Value)) (i : Int) (v : Value) :
    List (Int × Value) :=
  match l with
  | [] => [(i, v)]
  | (j, w) :: t => if j = i then (i, v) :: t else (j, w) :: bindAssoc t i v

/-- Model of `Stmt::bind_int`: implicit reset when positioned on a row, then
`c_int::try_from(index)` (failure maps to the range error), then
`sqlite3_bind_int64` whose status is the oracle argument `code`. -/
def Stmt.bind_int (s : Stmt) (index : Nat) (val : Int) (code : Int) :
    Stmt × Except Error Unit :=
  let s1 := if s.is_row then Stmt.reset s else s
  match cIntOfUsize index with
  | none => (s1, Except.error (Error.new SQLITE_RANGE))
  | some i =>
    match Error.new code with
    | Error.OK =>
        ({ s1 with bindings := bindAssoc s1.bindings i (Value.vint val) },
         Except.ok ())
    | e => (s1, Except.error e)

/-- Model of `Stmt::bind_blob`: implicit reset when positioned on a row, then
`c_int::try_from(index)` (failure maps to the range error), then
`c_int::try_from(val.len())` (failure maps to the too-big error), then
`sqlite3_bind_blob` whose status is the oracle argument `code`. -/
def Stmt.bind_blob (s : Stmt) (index : Nat) (val : List Nat) (code : Int) :
    Stmt × Except Error Unit :=
  let s1 := if s.is_row then Stmt.reset s else s
  match cIntOfUsize index with
  | none => (s1, Except.error (Error.new SQLITE_RANGE))
  | some i =>
    match cIntOfUsize val.length with
    | none => (s1, Except.error (Error.new SQLITE_TOOBIG))
    | some _ =>
      match Error.new code with
      | Error.OK =>
          ({ s1 with bindings := bindAssoc s1.bindings i (Value.vblob val) },
           Except.ok ())
      | e => (s1, Except.error e)

/-- Model of `Stmt::bind_null`: implicit reset when positioned on a row, then
`c_int::try_from(index)` (failure maps to the range error), then
`sqlite3_bind_null` whose status is the oracle argument `code`. -/
def Stmt.bind_null (s : Stmt) (index : Nat) (code : Int) :
    Stmt × Except Error Unit :=
  let s1 := if s.is_row then Stmt.reset s else s
  match cIntOfUsize index with
  | none => (s1, Except.error (Error.new SQLITE_RANGE))
  | some i =>
    match Error.new code with
    | Error.OK =>
        ({ s1 with bindings := bindAssoc s1.bindings i Value.vnull },
         Except.ok ())
    | e => (s1, Except.error e)

/-- Model of `Stmt::column_int`: asserts `is_row` and `index <
column_count` (violations panic), then dispatches on the native dynamic type
of the current row's column: null yields `None`, integer yields the value,
anything else panics. -/
def Stmt.column_int (s : Stmt) (index : Nat) : Outcome (Option Int) :=
  if s.is_row = true then
    if index < s.column_count then
      match s.row.getD index Value.vnull with
      | Value.vnull => Outcome.ok none
      | Value.vint i => Outcome.ok (some i)
      | Value.vblob _ => Outcome.panic
    else Outcome.panic
  else Outcome.panic

/-- Model of `Stmt::column_blob`: asserts `is_row` and `index <
column_count` (violations panic), then dispatches on the native dynamic type
of the current row's column: null yields `None`, blob yields the bytes,
anything else panics. -/
def Stmt.column_blob (s : Stmt) (index : Nat) : Outcome (Option (List Nat)) :=
  if s.is_row = true then
    if index < s.column_count then
      match s.row.getD index Value.vnull with
      | Value.vnull => Outcome.ok none
      | Value.vblob b => Outcome.ok (some b)
      | Value.vint _ => Outcome.panic
    else Outcome.panic
  else Outcome.panic

/-- A Rust `&'static str`: an address (where the static string data lives)
and the byte content.  Two distinct string literals with identical content
have distinct addresses. -/
structure StaticStr where
  addr : Nat
  bytes : List Nat
deriving DecidableEq, Repr

/-- Model of the `Sql` newtype (connection.rs): the cache key derived from a
static string, compared and hashed by the string's address, never by its
textual content. -/
def Sql (s : StaticStr) : Nat :=
  s.addr

/-- Looks a statement up in the cache (model of `HashMap` access keyed by a
`Sql` value). -/
def lookupAssoc (l : List (Nat × Stmt)) (k : Nat) : Option Stmt :=
  match l with
  | [] => none
  | (j, s) :: t => if j = k then some s else lookupAssoc t k

/-- Replaces the cached statement at key `k` in place (model of mutating an
occupied `HashMap` entry). -/
def updateAssoc (l : List (Nat × Stmt)) (k : Nat) (s : Stmt) :
    List (Nat × Stmt) :=
  match l with
  | [] => []
  | (j, w) :: t => if j = k then (j, s) :: t else (j, w) :: updateAssoc t k s

/-- Model of `Connection` (connection.rs): the native database handle `raw`
(modelled as its address) and the statement cache `stmts`, a map from `Sql`
keys (string addresses) to owned statements. -/
structure Connection where
  raw : Nat
  stmts : List (Nat × Stmt)
deriving DecidableEq, Repr

/-- Modelled from the spec: `crate::stmt_from_raw` (its module is not among
the given source files).  Wraps a freshly prepared native handle into a
`Stmt`; spec section 4.2 fixes the initial state — freshly prepared means
idle, not positioned on a row, the column count fixed at preparation, and no
bindings in the native statement. -/
def stmt_from_raw (raw : Nat) (count : Nat) : Stmt :=
  { raw := raw, column_count := count, is_row := false, bindings := [],
    row := [] }

/-- Model of `Connection::build_stmt`: `c_int::try_from(sql.len())` failure
maps to the too-big error; then `sqlite3_prepare_v2` runs, its status being
the oracle argument `prepCode`.  A non-`OK` status is returned as a typed
error.  On `OK` the native contract (spec section 6: prepare yields a
compiled statement handle on success) guarantees a non-null handle `newRaw`,
so the `NonNull::new(..).unwrap()` wrapping succeeds; `newCount` is the
column count fixed by the native layer at preparation. -/
def Connection.build_stmt (prepCode : Int) (newRaw : Nat) (newCount : Nat)
    (sql : StaticStr) : Except Error Stmt :=
  match cIntOfUsize sql.bytes.length with
  | none => Except.error (Error.new SQLITE_TOOBIG)
  | some _ =>
    match Error.new prepCode with
    | Error.OK => Except.ok (stmt_from_raw newRaw newCount)
    | e => Except.error e

/-- Model of `Connection::stmt`: looks the address-derived key up in the
cache.  Occupied: clears the cached statement (`Stmt::clear`, whose native
clear-bindings status is the oracle `clearCode`; failure panics) and returns
it.  Vacant: builds a fresh statement (prepare oracle `prepCode`, handle
`newRaw`, column count `newCount`) and inserts it; a prepare error is
returned without inserting. -/
def Connection.stmt (c : Connection) (sql : StaticStr) (clearCode : Int)
    (prepCode : Int) (newRaw : Nat) (newCount : Nat) :
    Outcome (Connection × Except Error Stmt) :=
  match lookupAssoc c.stmts (Sql sql) with
  | some st =>
    match Stmt.clear st clearCode with
    | Outcome.ok st2 =>
        Outcome.ok
          ({ c with stmts := updateAssoc c.stmts (Sql sql) st2 },
           Except.ok st2)
    | Outcome.panic => Outcome.panic
  | none =>
    match Connection.build_stmt prepCode newRaw newCount sql with
    | Except.ok st =>
        Outcome.ok ({ c with stmts := c.stmts ++ [(Sql sql, st)] },
                    Except.ok st)
    | Except.error e => Outcome.ok (c, Except.error e)

/-- Model of `Connection::stmt_once`: builds a standalone statement; the
cache is not consulted and not modified. -/
def Connection.stmt_once (c : Connection) (sql : StaticStr) (prepCode : Int)
    (newRaw : Nat) (newCount : Nat) : Connection × Except Error Stmt :=
  (c, Connection.build_stmt prepCode newRaw newCount sql)

/-- A native teardown call observable at the C boundary: finalizing a
prepared statement handle or closing a database handle. -/
inductive NativeEvent where
  | finalize (h : Nat) : NativeEvent
  | close (h : Nat) : NativeEvent
deriving DecidableEq, Repr

/-- Model of `Drop for Connection`: `self.stmts.clear()` drops every cached
`Stmt` (each drop runs `sqlite3_finalize` on its handle, per `Drop for
Stmt`), and only then `sqlite3_close` runs on the connection handle.  The
value is the ordered trace of native calls the teardown makes. -/
def Connection.dropEvents (c : Connection) : List NativeEvent :=
  (c.stmts.map fun kv => NativeEvent.finalize kv.2.raw) ++
    [NativeEvent.close c.raw]

/-! ### Helper lemmas about the cache model -/

/-- Classification of the range status code. -/
theorem Error_new_range : Error.new SQLITE_RANGE = Error.RANGE := by decide

/-- Classification of the too-big status code. -/
theorem Error_new_toobig : Error.new SQLITE_TOOBIG = Error.TOOBIG := by decide

/-- Appending a fresh entry at an absent key makes it (and only it)
retrievable under the new key. -/
theorem lookupAssoc_append (l : List (Nat × Stmt)) (k k' : Nat) (st : Stmt)
    (h : lookupAssoc l k' = none) :
    lookupAssoc (l ++ [(k, st)]) k' = if k = k' then some st else none := by
  induction l with
  | nil => simp [lookupAssoc]
  | cons p t ih =>
    obtain ⟨j, s⟩ := p
    by_cases hj : j = k'
    · simp [lookupAssoc, hj] at h
    · simp only [lookupAssoc, hj, if_neg hj, List.cons_append] at h ⊢
      exact ih h

/-- A key present in the prefix keeps its value after appending. -/
theorem lookupAssoc_append_left (l l' : List (Nat × Stmt)) (k : Nat)
    (v : Stmt) (h : lookupAssoc l k = some v) :
    lookupAssoc (l ++ l') k = some v := by
  induction l with
  | nil => simp [lookupAssoc] at h
  | cons p t ih =>
    obtain ⟨j, s⟩ := p
    by_cases hj : j = k
    · simp_all [lookupAssoc, hj]
    · simp only [lookupAssoc, hj, if_neg hj, List.cons_append] at h ⊢
      exact ih h

/-- In-place replacement never changes the number of cache entries. -/
theorem updateAssoc_length (l : List (Nat × Stmt)) (k : Nat) (s : Stmt) :
    (updateAssoc l k s).length = l.length := by
  induction l with
  | nil => rfl
  | cons p t ih =>
    obtain ⟨j, w⟩ := p
    by_cases hj : j = k <;> simp [updateAssoc, hj, ih]

/-- After replacing the entry at a present key, the key maps to the new
value. -/
theorem lookupAssoc_update_self (l : List (Nat × Stmt)) (k : Nat)
    (st s' : Stmt) (h : lookupAssoc l k = some st) :
    lookupAssoc (updateAssoc l k s') k = some s' := by
  induction l with
  | nil => simp [lookupAssoc] at h
  | cons p t ih =>
    obtain ⟨j, w⟩ := p
    by_cases hj : j = k
    · simp [lookupAssoc, updateAssoc, hj]
    · simp only [lookupAssoc, updateAssoc, hj, if_neg hj] at h ⊢
      exact ih h

/-- Replacing the entry at one key leaves every other key's lookup
unchanged. -/
theorem lookupAssoc_update_ne (l : List (Nat × Stmt)) (k k' : Nat)
    (s' : Stmt) (h : k' ≠ k) :
    lookupAssoc (updateAssoc l k s') k' = lookupAssoc l k' := by
  induction l with
  | nil => rfl
  | cons p t ih =>
    obtain ⟨j, w⟩ := p
    by_cases hj : j = k
    · subst hj
      simp [updateAssoc, lookupAssoc, Ne.symm h]
    · by_cases hj' : j = k'
      · simp [updateAssoc, lookupAssoc, hj, hj', h]
      · simp [updateAssoc, lookupAssoc, hj, hj', ih]

/-- Preparation succeeds and yields the fresh idle statement when the SQL
byte length fits a `c_int` and the native prepare status is `OK`. -/
theorem build_stmt_ok (p : Int) (r cnt : Nat) (s : StaticStr)
    (hlen : s.bytes.length ≤ C_INT_MAX) (hp : Error.new p = Error.OK) :
    Connection.build_stmt p r cnt s = Except.ok (stmt_from_raw r cnt) := by
  simp [Connection.build_stmt, cIntOfUsize, if_pos hlen, hp]

/-- Clearing succeeds (and fully clears bindings and row state) when the
native clear-bindings status is `OK`, preserving the native handle. -/
theorem clear_ok (s : Stmt) (code : Int) (h : Error.new code = Error.OK) :
    Stmt.clear s code =
      Outcome.ok (Stmt.clear_bindings (Stmt.reset s)) := by
  simp [Stmt.clear, h]

/-- Replacing the value at a key that first appears in the appended
singleton rewrites exactly that entry. -/
theorem updateAssoc_append_self (l : List (Nat × Stmt)) (k : Nat)
    (v w : Stmt) (h : lookupAssoc l k = none) :
    updateAssoc (l ++ [(k, v)]) k w = l ++ [(k, w)] := by
  induction l with
  | nil => simp [updateAssoc]
  | cons p t ih =>
    obtain ⟨j, s⟩ := p
    by_cases hj : j = k
    · simp [lookupAssoc, hj] at h
    · simp only [lookupAssoc, hj, if_neg hj, List.cons_append] at h ⊢
      simp [updateAssoc, hj, ih h]

/-- A successful clear determines the resulting statement: reset followed by
clearing the bindings. -/
theorem clear_ok_inv (s s2 : Stmt) (code : Int)
    (h : Stmt.clear s code = Outcome.ok s2) :
    s2 = Stmt.clear_bindings (Stmt.reset s) := by
  cases hE : Error.new code <;> simp [Stmt.clear, hE] at h
  exact h.symm

/-! ### Concrete states used by the witness instantiations -/

/-- A concrete statement state: positioned on a row, two columns, one bound
parameter. -/
def sampleStmt : Stmt :=
  { raw := 7, column_count := 2, is_row := true,
    bindings := [(1, Value.vint 5)], row := [Value.vint 5, Value.vnull] }

/-- A concrete static SQL string. -/
def sampleSql : StaticStr :=
  { addr := 100, bytes := [83, 69, 76] }

/-- A parameter index one beyond the largest `c_int` value. -/
def sampleBigIndex : Nat := 2147483648

/-- A second concrete static string: the same bytes as `sampleSql` at a
different address. -/
def sampleSqlB : StaticStr :=
  { addr := 200, bytes := [83, 69, 76] }

/-- A concrete connection holding one cached statement. -/
def sampleConnection : Connection :=
  { raw := 3, stmts := [(100, sampleStmt)] }

/-! ### Claim theorems -/

/-- C7: `Stmt::reset` sets the positioned-on-a-row flag to false and leaves
every bound parameter value (and the handle and column count) unchanged. -/
theorem C7_reset_frame (s : Stmt) :
    (Stmt.reset s).is_row = false ∧ (Stmt.reset s).bindings = s.bindings ∧
    (Stmt.reset s).raw = s.raw ∧
    (Stmt.reset s).column_count = s.column_count :=
  ⟨rfl, rfl, rfl, rfl⟩

/-- C2: `Stmt::step` has exactly three outcomes.  `DONE` implicitly resets
(row-state false) and returns `Ok(false)`; `ROW` sets row-state true,
returns `Ok(true)` and does not reset (the native row is retained and
bindings untouched); any other status implicitly resets and returns the
classified error as a value — the return type `Stmt × Except Error Bool`
has no panic outcome. -/
theorem C2_step_trichotomy (s : Stmt) (code : Int) (newRow : List Value) :
    (Error.new code = Error.DONE →
      Stmt.step s code newRow = (Stmt.reset s, Except.ok false) ∧
      (Stmt.step s code newRow).1.is_row = false) ∧
    (Error.new code = Error.ROW →
      Stmt.step s code newRow =
        ({ s with is_row := true, row := newRow }, Except.ok true) ∧
      (Stmt.step s code newRow).1.is_row = true ∧
      (Stmt.step s code newRow).1.bindings = s.bindings) ∧
    (Error.new code ≠ Error.DONE → Error.new code ≠ Error.ROW →
      Stmt.step s code newRow =
        (Stmt.reset s, Except.error (Error.new code)) ∧
      (Stmt.step s code newRow).1.is_row = false) := by
  refine ⟨?_, ?_, ?_⟩
  · intro h
    simp [Stmt.step, h, Stmt.reset]
  · intro h
    simp [Stmt.step, h]
  · intro h1 h2
    cases hE : Error.new code with
    | DONE => exact absurd hE h1
    | ROW => exact absurd hE h2
    | OK => simp [Stmt.step, hE, Stmt.reset]
    | TOOBIG => simp [Stmt.step, hE, Stmt.reset]
    | RANGE => simp [Stmt.step, hE, Stmt.reset]
    | engine ec => simp [Stmt.step, hE, Stmt.reset]

/-- Witness for C2 at the `DONE` status. -/
theorem C2_step_witness :
    Stmt.step sampleStmt SQLITE_DONE [] =
      (Stmt.reset sampleStmt, Except.ok false) :=
  ((C2_step_trichotomy sampleStmt SQLITE_DONE []).1 (by decide)).1

/-- C6: `Stmt::clear` panics exactly when the native clear-bindings call
reports a non-success status; on success it is reset followed by
clear-bindings, leaving no bound values and no row position, the handle
unchanged. -/
theorem C6_clear_panics_iff (s : Stmt) (code : Int) :
    (Stmt.clear s code = Outcome.panic ↔ Error.new code ≠ Error.OK) ∧
    (Error.new code = Error.OK →
      Stmt.clear s code =
        Outcome.ok (Stmt.clear_bindings (Stmt.reset s)) ∧
      (Stmt.clear_bindings (Stmt.reset s)).bindings = [] ∧
      (Stmt.clear_bindings (Stmt.reset s)).is_row = false ∧
      (Stmt.clear_bindings (Stmt.reset s)).raw = s.raw) := by
  constructor
  · cases hE : Error.new code <;> simp [Stmt.clear, hE]
  · intro h
    exact ⟨clear_ok s code h, rfl, rfl, rfl⟩

/-- Witness for C6 at the `OK` status. -/
theorem C6_clear_witness :
    Stmt.clear sampleStmt SQLITE_OK =
      Outcome.ok (Stmt.clear_bindings (Stmt.reset sampleStmt)) :=
  ((C6_clear_panics_iff sampleStmt SQLITE_OK).2 (by decide)).1

/-- C8: `Connection::build_stmt` maps an over-long SQL text to the too-big
error, maps any non-success prepare status to the classified typed error,
and on a success status wraps the native handle into a statement — the
wrapping itself never fails (`Except.ok`, no panic outcome). -/
theorem C8_build_stmt_errors (prepCode : Int) (newRaw newCount : Nat)
    (sql : StaticStr) :
    (C_INT_MAX < sql.bytes.length →
      Connection.build_stmt prepCode newRaw newCount sql =
        Except.error Error.TOOBIG) ∧
    (sql.bytes.length ≤ C_INT_MAX → Error.new prepCode ≠ Error.OK →
      Connection.build_stmt prepCode newRaw newCount sql =
        Except.error (Error.new prepCode)) ∧
    (sql.bytes.length ≤ C_INT_MAX → Error.new prepCode = Error.OK →
      Connection.build_stmt prepCode newRaw newCount sql =
        Except.ok (stmt_from_raw newRaw newCount)) := by
  refine ⟨?_, ?_, ?_⟩
  · intro h
    simp [Connection.build_stmt, cIntOfUsize, Nat.not_le.mpr h,
      Error_new_toobig]
  · intro h1 h2
    cases hE : Error.new prepCode <;>
      simp_all [Connection.build_stmt, cIntOfUsize]
  · intro h1 h2
    exact build_stmt_ok prepCode newRaw newCount sql h1 h2

/-- Witness for C8 at a small SQL text and the `OK` status. -/
theorem C8_build_stmt_witness :
    Connection.build_stmt SQLITE_OK 9 1 sampleSql =
      Except.ok (stmt_from_raw 9 1) :=
  (C8_build_stmt_errors SQLITE_OK 9 1 sampleSql).2.2 (by decide) (by decide)

/-- C4: the column readers panic — never return an error value — when not
positioned on a row, when the index reaches the column count, or when the
column's dynamic type is neither null nor the requested type; under the
preconditions a null column yields `None` and a matching-type column yields
its value. -/
theorem C4_column_contract (s : Stmt) (index : Nat) :
    (s.is_row = false →
      Stmt.column_int s index = Outcome.panic ∧
      Stmt.column_blob s index = Outcome.panic) ∧
    (s.column_count ≤ index →
      Stmt.column_int s index = Outcome.panic ∧
      Stmt.column_blob s index = Outcome.panic) ∧
    (s.is_row = true → index < s.column_count →
      (s.row.getD index Value.vnull = Value.vnull →
        Stmt.column_int s index = Outcome.ok none ∧
        Stmt.column_blob s index = Outcome.ok none) ∧
      (∀ i, s.row.getD index Value.vnull = Value.vint i →
        Stmt.column_int s index = Outcome.ok (some i) ∧
        Stmt.column_blob s index = Outcome.panic) ∧
      (∀ b, s.row.getD index Value.vnull = Value.vblob b →
        Stmt.column_blob s index = Outcome.ok (some b) ∧
        Stmt.column_int s index = Outcome.panic)) := by
  refine ⟨?_, ?_, ?_⟩
  · intro h
    constructor <;> simp [Stmt.column_int, Stmt.column_blob, h]
  · intro h
    have h2 : ¬index < s.column_count := Nat.not_lt.mpr h
    cases hr : s.is_row <;>
      constructor <;> simp [Stmt.column_int, Stmt.column_blob, hr, h2]
  · intro hr hlt
    refine ⟨?_, ?_, ?_⟩
    · intro hv
      constructor <;> simp_all [Stmt.column_int, Stmt.column_blob]
    · intro i hv
      constructor <;> simp_all [Stmt.column_int, Stmt.column_blob]
    · intro b hv
      constructor <;> simp_all [Stmt.column_int, Stmt.column_blob]

/-- Witness for C4 at an integer column read under the preconditions. -/
theorem C4_column_witness :
    Stmt.column_int sampleStmt 0 = Outcome.ok (some 5) :=
  (((C4_column_contract sampleStmt 0).2.2 (by decide) (by decide)).2.1 5
    (by decide)).1

/-- C5: every bind operation started in row state leaves the statement off
the row (implicit reset before binding); an index that does not fit a
`c_int` yields the range error for all three binds; a blob whose length
does not fit a `c_int` yields the too-big error. -/
theorem C5_bind_contract (s : Stmt) (index : Nat) (val : Int)
    (bytes : List Nat) (code : Int) :
    (s.is_row = true →
      (Stmt.bind_int s index val code).1.is_row = false ∧
      (Stmt.bind_blob s index bytes code).1.is_row = false ∧
      (Stmt.bind_null s index code).1.is_row = false ∧
      (Stmt.bind_int s index val code).1.row = [] ∧
      (Stmt.bind_blob s index bytes code).1.row = [] ∧
      (Stmt.bind_null s index code).1.row = []) ∧
    (C_INT_MAX < index →
      (Stmt.bind_int s index val code).2 = Except.error Error.RANGE ∧
      (Stmt.bind_blob s index bytes code).2 = Except.error Error.RANGE ∧
      (Stmt.bind_null s index code).2 = Except.error Error.RANGE) ∧
    (index ≤ C_INT_MAX → C_INT_MAX < bytes.length →
      (Stmt.bind_blob s index bytes code).2 = Except.error Error.TOOBIG) := by
  refine ⟨?_, ?_, ?_⟩
  · intro h
    cases hI : cIntOfUsize index <;>
      cases hL : cIntOfUsize bytes.length <;>
        cases hE : Error.new code <;>
          simp [Stmt.bind_int, Stmt.bind_blob, Stmt.bind_null, h, hI, hL,
            hE, Stmt.reset]
  · intro h
    have hni : cIntOfUsize index = none := by
      simp [cIntOfUsize, Nat.not_le.mpr h]
    refine ⟨?_, ?_, ?_⟩ <;>
      simp [Stmt.bind_int, Stmt.bind_blob, Stmt.bind_null, hni,
        Error_new_range]
  · intro h1 h2
    have hi : cIntOfUsize index = some (Int.ofNat index) := by
      simp [cIntOfUsize, h1]
    have hnl : cIntOfUsize bytes.length = none := by
      simp [cIntOfUsize, Nat.not_le.mpr h2]
    simp [Stmt.bind_blob, hi, hnl, Error_new_toobig]

/-- Witness for C5: binding while positioned on a row clears the row
state. -/
theorem C5_bind_witness :
    (Stmt.bind_int sampleStmt 1 5 SQLITE_OK).1.is_row = false :=
  ((C5_bind_contract sampleStmt 1 5 [] SQLITE_OK).1 (by decide)).1

/-- C9: a bind whose index fails the `c_int` conversion returns the range
error, but the implicit reset has already run — the row state is cleared
despite the error, for all three bind operations. -/
theorem C9_bind_error_after_reset (s : Stmt) (index : Nat) (val : Int)
    (bytes : List Nat) (code : Int)
    (hrow : s.is_row = true) (hidx : C_INT_MAX < index) :
    Stmt.bind_int s index val code =
      (Stmt.reset s, Except.error Error.RANGE) ∧
    Stmt.bind_blob s index bytes code =
      (Stmt.reset s, Except.error Error.RANGE) ∧
    Stmt.bind_null s index code =
      (Stmt.reset s, Except.error Error.RANGE) ∧
    (Stmt.reset s).is_row = false := by
  have hni : cIntOfUsize index = none := by
    simp [cIntOfUsize, Nat.not_le.mpr hidx]
  refine ⟨?_, ?_, ?_, rfl⟩ <;>
    simp [Stmt.bind_int, Stmt.bind_blob, Stmt.bind_null, hrow, hni,
      Error_new_range]

/-- Witness for C9 at a too-large parameter index on a row-positioned
statement. -/
theorem C9_bind_witness :
    Stmt.bind_int sampleStmt sampleBigIndex 5 SQLITE_OK =
      (Stmt.reset sampleStmt, Except.error Error.RANGE) :=
  (C9_bind_error_after_reset sampleStmt sampleBigIndex 5 [] SQLITE_OK
    (by decide) (by decide)).1

/-- C3: in the connection teardown trace, every cached statement's native
handle is finalized at a position strictly before the position at which the
connection's database handle is closed. -/
theorem C3_teardown_order (c : Connection) (kv : Nat × Stmt)
    (h : kv ∈ c.stmts) :
    ∃ i j, i < j ∧
      c.dropEvents.get? i = some (NativeEvent.finalize kv.2.raw) ∧
      c.dropEvents.get? j = some (NativeEvent.close c.raw) := by
  obtain ⟨n, hn⟩ := List.mem_iff_get.mp h
  refine ⟨n.1, c.stmts.length, n.isLt, ?_, ?_⟩
  · have hmap :
        n.1 < (c.stmts.map fun kv => NativeEvent.finalize kv.2.raw).length := by
      rw [List.length_map]
      exact n.isLt
    rw [Connection.dropEvents, List.get?_append hmap, List.get?_map,
      List.get?_eq_get n.isLt, hn]
    rfl
  · have hlen :
        (c.stmts.map fun kv => NativeEvent.finalize kv.2.raw).length =
          c.stmts.length := by
      simp
    rw [Connection.dropEvents, ← hlen]
    exact List.get?_concat_length _ _

/-- Witness for C3 at a connection with one cached statement. -/
theorem C3_teardown_witness :
    ∃ i j, i < j ∧
      sampleConnection.dropEvents.get? i =
        some (NativeEvent.finalize sampleStmt.raw) ∧
      sampleConnection.dropEvents.get? j =
        some (NativeEvent.close sampleConnection.raw) :=
  C3_teardown_order sampleConnection (100, sampleStmt) (by decide)

/-- C10: the statement cache only grows.  Any non-panicking cached
acquisition preserves every existing entry (same key, same native handle)
and adds at most the acquired key; one-off preparation leaves the connection
(and hence the cache) untouched. -/
theorem C10_cache_grow_only :
    (∀ (c : Connection) (sql : StaticStr) (clearCode prepCode : Int)
        (newRaw newCount : Nat) (c' : Connection) (res : Except Error Stmt),
      Connection.stmt c sql clearCode prepCode newRaw newCount =
        Outcome.ok (c', res) →
      (∀ k st, lookupAssoc c.stmts k = some st →
        ∃ st', lookupAssoc c'.stmts k = some st' ∧ st'.raw = st.raw) ∧
      (∀ k, lookupAssoc c.stmts k = none → k ≠ Sql sql →
        lookupAssoc c'.stmts k = none)) ∧
    (∀ (c : Connection) (sql : StaticStr) (prepCode : Int)
        (newRaw newCount : Nat),
      (Connection.stmt_once c sql prepCode newRaw newCount).1 = c) := by
  constructor
  · intro c sql clearCode prepCode newRaw newCount c' res h
    cases hL : lookupAssoc c.stmts (Sql sql) with
    | some st0 =>
      cases hC : Stmt.clear st0 clearCode with
      | panic =>
        simp [Connection.stmt, hL, hC] at h
      | ok st2 =>
        simp only [Connection.stmt, hL, hC, Outcome.ok.injEq,
          Prod.mk.injEq] at h
        obtain ⟨hc, hres⟩ := h
        subst hc
        have hraw : st2.raw = st0.raw := by
          rw [clear_ok_inv st0 st2 clearCode hC]
          simp [Stmt.clear_bindings, Stmt.reset]
        constructor
        · intro k st hk
          by_cases hkk : k = Sql sql
          · subst hkk
            have hst : st = st0 := Option.some.inj (hk.symm.trans hL)
            exact ⟨st2, lookupAssoc_update_self c.stmts _ st0 st2 hL,
              by rw [hraw, hst]⟩
          · exact ⟨st, by
              simpa [lookupAssoc_update_ne c.stmts (Sql sql) k st2 hkk]
                using hk, rfl⟩
        · intro k hk hne
          simpa [lookupAssoc_update_ne c.stmts (Sql sql) k st2 hne]
            using hk
    | none =>
      cases hB : Connection.build_stmt prepCode newRaw newCount sql with
      | ok st =>
        simp only [Connection.stmt, hL, hB, Outcome.ok.injEq,
          Prod.mk.injEq] at h
        obtain ⟨hc, hres⟩ := h
        subst hc
        constructor
        · intro k st1 hk
          exact ⟨st1, lookupAssoc_append_left c.stmts _ k st1 hk, rfl⟩
        · intro k hk hne
          have hne' : ¬Sql sql = k := fun hh => hne hh.symm
          have hap := lookupAssoc_append c.stmts (Sql sql) k st hk
          rw [hap, if_neg hne']
      | error e =>
        simp only [Connection.stmt, hL, hB, Outcome.ok.injEq,
          Prod.mk.injEq] at h
        obtain ⟨hc, hres⟩ := h
        subst hc
        exact ⟨fun k st1 hk => ⟨st1, hk, rfl⟩, fun k hk hne => hk⟩
  · intro c sql prepCode newRaw newCount
    rfl

/-- Witness for C10: a cache hit preserves the entry's key and native
handle. -/
theorem C10_cache_witness :
    ∃ st', lookupAssoc [(100, stmt_from_raw 7 2)] 100 = some st' ∧
      st'.raw = sampleStmt.raw :=
  (C10_cache_grow_only.1 sampleConnection sampleSql SQLITE_OK SQLITE_OK 9 1
      ⟨3, [(100, stmt_from_raw 7 2)]⟩ (Except.ok (stmt_from_raw 7 2))
      (by rfl)).1 100 sampleStmt (by decide)

/-- C1: cache identity is by address.  An acquisition at a cached key is a
cache hit: it returns the entry at that key (same native handle) with
bindings and row state cleared, and neither removes nor adds entries.  A
first acquisition inserts a fresh entry keyed by the string's address;
re-acquiring with the same static string hits that entry, while a distinct
static string with identical byte content misses and gets its own second
entry. -/
theorem C1_cache_identity :
    (∀ (c : Connection) (s : StaticStr) (clearCode prepCode : Int)
        (newRaw newCount : Nat) (st : Stmt),
      lookupAssoc c.stmts (Sql s) = some st →
      Error.new clearCode = Error.OK →
      Connection.stmt c s clearCode prepCode newRaw newCount =
        Outcome.ok
          ({ c with stmts := updateAssoc c.stmts (Sql s) (Stmt.clear_bindings (Stmt.reset st)) },
           Except.ok (Stmt.clear_bindings (Stmt.reset st))) ∧
      (Stmt.clear_bindings (Stmt.reset st)).raw = st.raw ∧
      (Stmt.clear_bindings (Stmt.reset st)).bindings = [] ∧
      (Stmt.clear_bindings (Stmt.reset st)).is_row = false ∧
      lookupAssoc (updateAssoc c.stmts (Sql s)
          (Stmt.clear_bindings (Stmt.reset st))) (Sql s) =
        some (Stmt.clear_bindings (Stmt.reset st)) ∧
      (updateAssoc c.stmts (Sql s)
          (Stmt.clear_bindings (Stmt.reset st))).length =
        c.stmts.length) ∧
    (∀ (c : Connection) (s s' : StaticStr) (clearCode p p' : Int)
        (r cnt r' cnt' : Nat),
      lookupAssoc c.stmts (Sql s) = none →
      lookupAssoc c.stmts (Sql s') = none →
      s'.addr ≠ s.addr → s'.bytes = s.bytes →
      s.bytes.length ≤ C_INT_MAX →
      Error.new p = Error.OK → Error.new p' = Error.OK →
      Error.new clearCode = Error.OK →
      Connection.stmt c s clearCode p r cnt =
        Outcome.ok
          ({ c with stmts := c.stmts ++ [(Sql s, stmt_from_raw r cnt)] },
           Except.ok (stmt_from_raw r cnt)) ∧
      Connection.stmt
          { c with stmts := c.stmts ++ [(Sql s, stmt_from_raw r cnt)] } s
          clearCode p' r' cnt' =
        Outcome.ok
          ({ c with stmts := c.stmts ++ [(Sql s, stmt_from_raw r cnt)] },
           Except.ok (stmt_from_raw r cnt)) ∧
      Connection.stmt
          { c with stmts := c.stmts ++ [(Sql s, stmt_from_raw r cnt)] } s'
          clearCode p' r' cnt' =
        Outcome.ok
          ({ c with stmts := c.stmts ++ [(Sql s, stmt_from_raw r cnt)] ++ [(Sql s', stmt_from_raw r' cnt')] },
           Except.ok (stmt_from_raw r' cnt')) ∧
      Sql s ≠ Sql s' ∧
      lookupAssoc (c.stmts ++ [(Sql s, stmt_from_raw r cnt)]
          ++ [(Sql s', stmt_from_raw r' cnt')]) (Sql s) =
        some (stmt_from_raw r cnt) ∧
      lookupAssoc (c.stmts ++ [(Sql s, stmt_from_raw r cnt)]
          ++ [(Sql s', stmt_from_raw r' cnt')]) (Sql s') =
        some (stmt_from_raw r' cnt') ∧
      (c.stmts ++ [(Sql s, stmt_from_raw r cnt)]
          ++ [(Sql s', stmt_from_raw r' cnt')]).length =
        c.stmts.length + 2) := by
  constructor
  · intro c s clearCode prepCode newRaw newCount st hst hcl
    refine ⟨?_, rfl, rfl, rfl, ?_, ?_⟩
    · simp [Connection.stmt, hst, clear_ok st clearCode hcl]
    · exact lookupAssoc_update_self c.stmts (Sql s) st _ hst
    · exact updateAssoc_length c.stmts (Sql s) _
  · intro c s s' clearCode p p' r cnt r' cnt' h0 h0' haddr hbytes hlen hp
      hp' hcl
    have hb1 : Connection.build_stmt p r cnt s =
        Except.ok (stmt_from_raw r cnt) :=
      build_stmt_ok p r cnt s hlen hp
    have hlen' : s'.bytes.length ≤ C_INT_MAX := by
      rw [hbytes]
      exact hlen
    have hb2 : Connection.build_stmt p' r' cnt' s' =
        Except.ok (stmt_from_raw r' cnt') :=
      build_stmt_ok p' r' cnt' s' hlen' hp'
    have hkey : Sql s ≠ Sql s' := fun hh => haddr hh.symm
    have hc1 : lookupAssoc (c.stmts ++ [(Sql s, stmt_from_raw r cnt)])
        (Sql s) = some (stmt_from_raw r cnt) := by
      rw [lookupAssoc_append c.stmts (Sql s) (Sql s) _ h0]
      simp
    have hm1 : lookupAssoc (c.stmts ++ [(Sql s, stmt_from_raw r cnt)])
        (Sql s') = none := by
      rw [lookupAssoc_append c.stmts (Sql s) (Sql s') _ h0']
      simp [hkey]
    have hcf : Stmt.clear_bindings (Stmt.reset (stmt_from_raw r cnt)) =
        stmt_from_raw r cnt := rfl
    refine ⟨?_, ?_, ?_, hkey, ?_, ?_, ?_⟩
    · simp [Connection.stmt, h0, hb1]
    · simp [Connection.stmt, hc1, clear_ok _ clearCode hcl, hcf,
        updateAssoc_append_self c.stmts (Sql s) (stmt_from_raw r cnt)
          (stmt_from_raw r cnt) h0]
    · simp [Connection.stmt, hm1, hb2]
    · exact lookupAssoc_append_left _ _ _ _ hc1
    · rw [lookupAssoc_append (c.stmts ++ [(Sql s, stmt_from_raw r cnt)])
        (Sql s') (Sql s') _ hm1]
      simp
    · simp

/-- Witness for C1: a first acquisition on an empty cache inserts the fresh
statement keyed by the string's address. -/
theorem C1_cache_witness :
    Connection.stmt ⟨3, []⟩ sampleSql SQLITE_OK SQLITE_OK 9 1 =
      Outcome.ok
        (⟨3, [(Sql sampleSql, stmt_from_raw 9 1)]⟩,
         Except.ok (stmt_from_raw 9 1)) :=
  (C1_cache_identity.2 ⟨3, []⟩ sampleSql sampleSqlB SQLITE_OK SQLITE_OK
    SQLITE_OK 9 1 11 1 (by decide) (by decide) (by decide) (by decide)
    (by decide) (by decide) (by decide) (by decide)).1

end MouseSqlite
